import Mathlib

/-!
# Telesales Dashboard — verification of the normalization and metrics core

Shallow embedding of `src/utils/data_processor.py` and `src/utils/metrics.py`
(JUAN365 Telesales Dashboard).  Raw spreadsheet rows are lists of string
cells; `pandas` DataFrames are modelled as a list of records together with a
set of column-presence flags (the pipeline's conditional logic branches on
`"col" in df.columns`).  Machine floats are modelled by exact rationals;
`pandas.Timestamp` values by calendar dates compared through their civil day
number.  Functions that can raise a Python exception return `Except Unit`.
-/

namespace Telesales

/-- A calendar date, the model of a (midnight) `pandas.Timestamp`. -/
structure Date where
  year : Int
  month : Int
  day : Int
deriving Repr, DecidableEq

/-- Gregorian leap-year test. -/
def isLeap (y : Int) : Bool :=
  (y % 4 == 0 && y % 100 != 0) || y % 400 == 0

/-- Number of days in a month of a given year. -/
def daysInMonth (y m : Int) : Int :=
  if m == 2 then (if isLeap y then 29 else 28)
  else if m == 4 || m == 6 || m == 9 || m == 11 then 30
  else 31

/-- Whether (y, m, d) denotes a real calendar date (the validation performed
by the `datetime`/`Timestamp` constructors). -/
def validDate (y m d : Int) : Bool :=
  1 ≤ m && m ≤ 12 && 1 ≤ d && d ≤ daysInMonth y m

/-- Civil day number of a date (days since 1970-01-01, Gregorian calendar,
standard days-from-civil computation, meaningful for year ≥ 0).  Two valid
`Timestamp`s compare exactly as their day numbers do. -/
def Date.toDays (dt : Date) : Int :=
  let y := if dt.month ≤ 2 then dt.year - 1 else dt.year
  let era := y / 400
  let yoe := y - era * 400
  let mp := (dt.month + 9) % 12
  let doy := (153 * mp + 2) / 5 + dt.day - 1
  let doe := yoe * 365 + yoe / 4 - yoe / 100 + doy
  era * 146097 + doe - 719468

/-- Model of `Timestamp.replace(year=y)`: keeps month and day; raises
(`none`) when the resulting combination is not a real date (e.g. Feb 29
moved to a non-leap year). -/
def replaceYear (dt : Date) (y : Int) : Option Date :=
  if validDate y dt.month dt.day then some { year := y, month := dt.month, day := dt.day }
  else none

/-- Whitespace characters stripped by Python `str.strip()`. -/
def isWs (c : Char) : Bool :=
  c == ' ' || c == '\t' || c == '\n' || c == '\r' || c == '\x0b' || c == '\x0c'

/-- Strip leading and trailing whitespace from a character list. -/
def trimChars (cs : List Char) : List Char :=
  ((cs.dropWhile isWs).reverse.dropWhile isWs).reverse

/-- Model of Python `str.strip()`. -/
def pyStrip (s : String) : String := String.mk (trimChars s.data)

/-- Split a character list on a separator character (the behaviour of
`str.split(sep)` for a one-character separator): `""` gives `[""]`. -/
def splitChar (sep : Char) : List Char → List (List Char)
  | [] => [[]]
  | c :: cs =>
    if c == sep then [] :: splitChar sep cs
    else
      match splitChar sep cs with
      | [] => [[c]]
      | p :: ps => (c :: p) :: ps

/-- Accumulate the value of a decimal digit string; `none` on a non-digit. -/
def digitsValAux : List Char → Nat → Option Nat
  | [], acc => some acc
  | c :: cs, acc =>
    if c.isDigit then digitsValAux cs (acc * 10 + (c.toNat - 48)) else none

/-- Parse a non-empty all-digit string. -/
def parseDigits : List Char → Option Nat
  | [] => none
  | cs => digitsValAux cs 0

/-- Model of Python `int(s)` on a decimal numeral (optional surrounding
whitespace and sign). -/
def pyIntChars (cs : List Char) : Option Int :=
  match trimChars cs with
  | '-' :: ds => (parseDigits ds).map (fun n => -(n : Int))
  | '+' :: ds => (parseDigits ds).map (fun n => (n : Int))
  | ds => (parseDigits ds).map (fun n => (n : Int))

/-- Split a string on a separator into exactly three numeric fields (the
strict-format paths of `pd.to_datetime(s, format=...)`). -/
def threeParts (s : String) (sep : Char) : Option (Int × Int × Int) :=
  match (splitChar sep s.data).map parseDigits with
  | [some a, some b, some c] => some ((a : Int), (b : Int), (c : Int))
  | _ => none

/-- Build a date after constructor-style validation. -/
def mkValidDate (y m d : Int) : Option Date :=
  if validDate y m d then some { year := y, month := m, day := d } else none

/-- Format path `pd.to_datetime(s, format="%Y-%m-%d")`. -/
def parseYMDDash (s : String) : Option Date :=
  (threeParts s '-').bind fun p => mkValidDate p.1 p.2.1 p.2.2

/-- Format path `pd.to_datetime(s, format="%m/%d/%Y")`. -/
def parseMDYSlash (s : String) : Option Date :=
  (threeParts s '/').bind fun p => mkValidDate p.2.2 p.1 p.2.1

/-- Format path `pd.to_datetime(s, format="%d/%m/%Y")`. -/
def parseDMYSlash (s : String) : Option Date :=
  (threeParts s '/').bind fun p => mkValidDate p.2.2 p.2.1 p.1

/-- Format path `pd.to_datetime(s, format="%m-%d-%Y")`. -/
def parseMDYDash (s : String) : Option Date :=
  (threeParts s '-').bind fun p => mkValidDate p.2.2 p.1 p.2.1

/-- Model of the permissive fallback `pd.to_datetime(s, errors="coerce")`.
Modelled as a conservative fragment: the slash-separated ISO form
`Y/m/d`; every other remaining input is treated as unparsable (`NaT`,
i.e. `none`).  Strings accepted by the real permissive parser but not by
this fragment would, in the source, also have their year overwritten
immediately afterwards, so no claim below depends on the difference. -/
def toDatetimeCoerce (s : String) : Option Date :=
  (threeParts s '/').bind fun p => mkValidDate p.1 p.2.1 p.2.2

/-- First stage of `parse_date`: the fixed explicit formats, tried in
source order. -/
def parseFixedFormats (s : String) : Option Date :=
  match parseYMDDash s with
  | some d => some d
  | none =>
    match parseMDYSlash s with
    | some d => some d
    | none =>
      match parseDMYSlash s with
      | some d => some d
      | none => parseMDYDash s

/-- Second stage of `parse_date`: the two-part month/day split completed
with the target year (`pd.Timestamp(year=target_year, month=month,
day=day)`, whose constructor error is caught and treated as no parse). -/
def parseShortMonthDay (s : String) (targetYear : Int) : Option Date :=
  match splitChar '/' s.data with
  | [ms, ds] =>
    match pyIntChars ms, pyIntChars ds with
    | some m, some d => mkValidDate targetYear m d
    | _, _ => none
  | _ => none

/-- The three parse stages chained, fixed formats first, then the
month/day fallback, then the permissive parser. -/
def parseAttempts (s : String) (targetYear : Int) : Option Date :=
  match parseFixedFormats s with
  | some d => some d
  | none =>
    match parseShortMonthDay s targetYear with
    | some d => some d
    | none => toDatetimeCoerce s

/-- Model of the nested `parse_date(date_str, target_year)` of
`standardize_data` / `standardize_ftd_data` (the two copies are textually
identical).  `Except.error ()` models the uncaught `ValueError` that
`parsed_date.replace(year=target_year)` raises outside every
`try`/`except` block. -/
def parse_date (dateStr : String) (targetYear : Int) : Except Unit (Option Date) :=
  if dateStr == "" then Except.ok none
  else
    match parseAttempts (pyStrip dateStr) targetYear with
    | none => Except.ok none
    | some d =>
      match replaceYear d targetYear with
      | some d2 => Except.ok (some d2)
      | none => Except.error ()

/-!
## Numbers: `pd.to_numeric(..., errors="coerce")`

Numeric cells are parsed into exact rationals (binary-float rounding of the
source is not modelled; every numeral appearing in the sheets is intended as
a decimal count/amount).  Scientific notation is not modelled (treated as
unparsable, hence 0 — the coercion default). -/

/-- Parsed decimal numeral: sign, integer part, fractional digits as a
numerator together with their count. -/
structure Decimal where
  neg : Bool
  intPart : Nat
  fracNum : Nat
  fracLen : Nat
deriving Repr, DecidableEq

/-- Unsigned decimal numeral with an optional decimal point
(accepting `"12"`, `"12.5"`, `".5"`, `"5."`). -/
def parseUnsignedDec (cs : List Char) : Option (Nat × Nat × Nat) :=
  match splitChar '.' cs with
  | [ip] => (parseDigits ip).map (fun n => (n, 0, 0))
  | [ip, fp] =>
    if ip.isEmpty && fp.isEmpty then none
    else if ip.isEmpty then (parseDigits fp).map (fun m => (0, m, fp.length))
    else if fp.isEmpty then (parseDigits ip).map (fun n => (n, 0, 0))
    else
      match parseDigits ip, parseDigits fp with
      | some n, some m => some (n, m, fp.length)
      | _, _ => none
  | _ => none

/-- Signed decimal numeral. -/
def parseDecimal (cs : List Char) : Option Decimal :=
  match cs with
  | '-' :: rest => (parseUnsignedDec rest).map (fun p => ⟨true, p.1, p.2.1, p.2.2⟩)
  | '+' :: rest => (parseUnsignedDec rest).map (fun p => ⟨false, p.1, p.2.1, p.2.2⟩)
  | _ => (parseUnsignedDec cs).map (fun p => ⟨false, p.1, p.2.1, p.2.2⟩)

/-- Exact rational value of a decimal numeral (the `float` it denotes,
binary rounding not modelled). -/
def Decimal.toQ (d : Decimal) : ℚ :=
  (if d.neg then -1 else 1) * ((d.intPart : ℚ) + (d.fracNum : ℚ) / (10 : ℚ) ^ d.fracLen)

/-- Truncation toward zero of a decimal numeral — the `astype(int)` cast of
its float value, which simply keeps the signed integer part. -/
def Decimal.toTruncInt (d : Decimal) : Int :=
  if d.neg then -(d.intPart : Int) else (d.intPart : Int)

/-- Remove every occurrence of a character (`str.replace(c, "")`). -/
def removeChar (c : Char) (cs : List Char) : List Char :=
  cs.filter (fun x => x != c)

/-- Numeric coercion of the standard dialects: strip commas and spaces, then
`pd.to_numeric(errors="coerce").fillna(0).astype(int)`. -/
def toNumericInt (s : String) : Int :=
  ((parseDecimal (removeChar ' ' (removeChar ',' s.data))).map Decimal.toTruncInt).getD 0

/-- Numeric coercion of the FTD dialect: additionally strips the peso sign,
then `to_numeric(errors="coerce").fillna(0).astype(float)`. -/
def toNumericFtdQ (s : String) : ℚ :=
  ((parseDecimal (removeChar ' ' (removeChar ',' (removeChar '₱' s.data)))).map
    Decimal.toQ).getD 0

/-- Integer FTD columns: the float value truncated by `astype(int)`. -/
def toNumericFtdInt (s : String) : Int :=
  ((parseDecimal (removeChar ' ' (removeChar ',' (removeChar '₱' s.data)))).map
    Decimal.toTruncInt).getD 0

/-!
## Data model: records and frames

A DataFrame is a list of records plus column-presence flags: the source
branches on `"col" in df.columns`, and different pipeline stages produce
different column sets (e.g. only `google_sheets.load_sheet_data` adds
`_team`; only the standard dialects have `friend_added`; no stage ever
creates `ftd_count`).  A record carries a value for every possible field;
fields whose column flag is off are ignored by every consumer. -/

/-- One normalized row.  String defaults and zeroes are the values a field
holds when its column is absent from the concrete frame. -/
structure Rec where
  date : Option Date := none
  agent_name : String := ""
  team : String := ""
  team_leader : String := ""
  sheet_name : String := ""
  yearTag : Int := 0
  is_present : Bool := true
  recharge_count : Int := 0
  total_calls : Int := 0
  answered_calls : Int := 0
  not_connected : Int := 0
  people_recalled : Int := 0
  friend_added : Int := 0
  ftd_count : Int := 0
  deposit_amount : ℚ := 0
  daily_target : Int := 0
  social_media_added : Int := 0
deriving Repr, DecidableEq

/-- Column-presence flags for the columns the source tests with
`"col" in df.columns`. -/
structure Cols where
  date : Bool := false
  agent_name : Bool := false
  team : Bool := false
  is_present : Bool := false
  recharge_count : Bool := false
  total_calls : Bool := false
  answered_calls : Bool := false
  not_connected : Bool := false
  people_recalled : Bool := false
  friend_added : Bool := false
  ftd_count : Bool := false
  deposit_amount : Bool := false
  social_media_added : Bool := false
deriving Repr, DecidableEq

/-- Model of a `pandas.DataFrame` flowing through the pipeline. -/
structure Frame where
  cols : Cols := {}
  rows : List Rec := []
deriving Repr, DecidableEq

/-!
## Schema registry (`data_processor.py` lines 15-51)
-/

/-- Year-2025 column positions (`COLUMN_POSITIONS`). -/
def COLUMN_POSITIONS : List (String × Nat) :=
  [("date", 0), ("agent_name", 1), ("recharge_count", 3), ("total_calls", 7),
   ("not_connected", 11), ("answered_calls", 19), ("people_recalled", 20)]

/-- Year-2026 column positions (`COLUMN_POSITIONS_2026`). -/
def COLUMN_POSITIONS_2026 : List (String × Nat) :=
  [("date", 0), ("agent_name", 1), ("recharge_count", 3), ("total_calls", 5),
   ("not_connected", 6), ("friend_added", 8), ("answered_calls", 9),
   ("people_recalled", 10)]

/-- FTD team column positions (`FTD_COLUMN_POSITIONS`). -/
def FTD_COLUMN_POSITIONS : List (String × Nat) :=
  [("date", 0), ("agent_name", 1), ("deposit_amount", 2), ("recharge_count", 3),
   ("daily_target", 4), ("total_calls", 5), ("not_connected", 6),
   ("social_media_added", 8), ("answered_calls", 9), ("people_recalled", 10)]

/-!
## Row normalizers (`standardize_data`, `standardize_ftd_data`)
-/

/-- Cell extraction `row[i] if i < len(row) else ''` after padding — the pad makes the guard
redundant, so extraction is exactly "cell or empty string". -/
def getCell (row : List String) (i : Nat) : String := row.getD i ""

/-- Extract the dialect's field/cell pairs from one raw row. -/
def extractCells (positions : List (String × Nat)) (row : List String) :
    List (String × String) :=
  positions.map (fun p => (p.1, getCell row p.2))

/-- Look a field up in the extracted cells (`record[field]`). -/
def lookupField (cells : List (String × String)) (f : String) : String :=
  ((cells.find? (fun p => p.1 == f)).map Prod.snd).getD ""

/-- Agent-name cleaning: `df.replace('', pd.NA)` turns an empty cell into a
missing value, `.astype(str)` then renders it as the literal text `"<NA>"`,
and `.str.strip()` trims whitespace.  The subsequent filters drop `""` and
`"nan"` — but not `"<NA>"`. -/
def cleanAgent (raw : String) : String :=
  pyStrip (if raw == "" then "<NA>" else raw)

/-- Pad a raw row to the expected width with empty-string cells. -/
def padTo (w : Nat) (row : List String) : List String :=
  if row.length < w then row ++ List.replicate (w - row.length) "" else row

/-- Extracted field/cell pairs of one standard-dialect row (pad to 26,
then position lookup). -/
def stdCellsOf (is2026 : Bool) (row0 : List String) : List (String × String) :=
  extractCells (if is2026 then COLUMN_POSITIONS_2026 else COLUMN_POSITIONS) (padTo 26 row0)

/-- The record a surviving standard-dialect row becomes: parsed date,
cleaned agent name, coerced numerics, backfilled `friend_added`, the
`_year` tag and `is_present = True`. -/
def stdRecOf (is2026 : Bool) (year : Int) (cells : List (String × String))
    (d : Option Date) : Rec :=
  { date := d
    agent_name := cleanAgent (lookupField cells "agent_name")
    recharge_count := toNumericInt (lookupField cells "recharge_count")
    total_calls := toNumericInt (lookupField cells "total_calls")
    not_connected := toNumericInt (lookupField cells "not_connected")
    answered_calls := toNumericInt (lookupField cells "answered_calls")
    people_recalled := toNumericInt (lookupField cells "people_recalled")
    friend_added := if is2026 then toNumericInt (lookupField cells "friend_added") else 0
    yearTag := year
    is_present := true }

/-- Per-row body of `standardize_data`: extraction, the all-empty drop
(`dropna(how='all')` after `replace('', NA)`), date parsing, numeric
coercion, agent-name cleaning and filtering.  Returns `none` for a dropped
row and propagates the uncaught `ValueError` of the date path. -/
def processStdRow (is2026 : Bool) (year : Int) (row0 : List String) :
    Except Unit (Option Rec) :=
  if (stdCellsOf is2026 row0).all (fun p => p.2 == "") then Except.ok none
  else
    match parse_date (lookupField (stdCellsOf is2026 row0) "date") year with
    | Except.error e => Except.error e
    | Except.ok d =>
      if cleanAgent (lookupField (stdCellsOf is2026 row0) "agent_name") == ""
          || cleanAgent (lookupField (stdCellsOf is2026 row0) "agent_name") == "nan" then
        Except.ok none
      else Except.ok (some (stdRecOf is2026 year (stdCellsOf is2026 row0) d))

/-- Process the data rows in order, keeping the surviving records. -/
def processStdRows (is2026 : Bool) (year : Int) :
    List (List String) → Except Unit (List Rec)
  | [] => Except.ok []
  | row :: rest =>
    match processStdRow is2026 year row with
    | Except.error e => Except.error e
    | Except.ok r? =>
      match processStdRows is2026 year rest with
      | Except.error e => Except.error e
      | Except.ok rs =>
        match r? with
        | some r => Except.ok (r :: rs)
        | none => Except.ok rs

/-- Column set of a non-degenerate `standardize_data` result (`friend_added`
is backfilled to 0 for 2025, so it is always present). -/
def stdCols : Cols :=
  { date := true, agent_name := true, recharge_count := true, total_calls := true,
    answered_calls := true, not_connected := true, people_recalled := true,
    friend_added := true, is_present := true }

/-- Model of `standardize_data(raw_values, year)` (`data_processor.py` lines 58-176).
Header-only or empty input yields the empty `pd.DataFrame()` (no columns). -/
def standardize_data (raw : List (List String)) (year : Int) :
    Except Unit Frame :=
  if raw.length < 2 then Except.ok {}
  else
    match processStdRows (year == 2026) year (raw.drop 1) with
    | Except.error e => Except.error e
    | Except.ok rows => Except.ok { cols := stdCols, rows := rows }

/-- Extracted field/cell pairs of one FTD-dialect row (pad to 15, then
position lookup). -/
def ftdCellsOf (row0 : List String) : List (String × String) :=
  extractCells FTD_COLUMN_POSITIONS (padTo 15 row0)

/-- The record a surviving FTD-dialect row becomes (`deposit_amount` kept
as a float, all other numerics truncated by `astype(int)`). -/
def ftdRecOf (year : Int) (cells : List (String × String)) (d : Option Date) : Rec :=
  { date := d
    agent_name := cleanAgent (lookupField cells "agent_name")
    deposit_amount := toNumericFtdQ (lookupField cells "deposit_amount")
    recharge_count := toNumericFtdInt (lookupField cells "recharge_count")
    daily_target := toNumericFtdInt (lookupField cells "daily_target")
    total_calls := toNumericFtdInt (lookupField cells "total_calls")
    not_connected := toNumericFtdInt (lookupField cells "not_connected")
    social_media_added := toNumericFtdInt (lookupField cells "social_media_added")
    answered_calls := toNumericFtdInt (lookupField cells "answered_calls")
    people_recalled := toNumericFtdInt (lookupField cells "people_recalled")
    yearTag := year
    is_present := true }

/-- Per-row body of `standardize_ftd_data`: same pipeline over the FTD
dialect (pad to 15, peso-sign stripping, `deposit_amount` kept as float). -/
def processFtdRow (year : Int) (row0 : List String) :
    Except Unit (Option Rec) :=
  if (ftdCellsOf row0).all (fun p => p.2 == "") then Except.ok none
  else
    match parse_date (lookupField (ftdCellsOf row0) "date") year with
    | Except.error e => Except.error e
    | Except.ok d =>
      if cleanAgent (lookupField (ftdCellsOf row0) "agent_name") == ""
          || cleanAgent (lookupField (ftdCellsOf row0) "agent_name") == "nan" then
        Except.ok none
      else Except.ok (some (ftdRecOf year (ftdCellsOf row0) d))

/-- Process the FTD data rows in order. -/
def processFtdRows (year : Int) :
    List (List String) → Except Unit (List Rec)
  | [] => Except.ok []
  | row :: rest =>
    match processFtdRow year row with
    | Except.error e => Except.error e
    | Except.ok r? =>
      match processFtdRows year rest with
      | Except.error e => Except.error e
      | Except.ok rs =>
        match r? with
        | some r => Except.ok (r :: rs)
        | none => Except.ok rs

/-- Column set of a non-degenerate `standardize_ftd_data` result.  Note:
the FTD dialect emits `deposit_amount`, never `ftd_count`. -/
def ftdCols : Cols :=
  { date := true, agent_name := true, deposit_amount := true, recharge_count := true,
    total_calls := true, answered_calls := true, not_connected := true,
    people_recalled := true, social_media_added := true, is_present := true }

/-- Model of `standardize_ftd_data(raw_values, year)` (`data_processor.py`
lines 179-299). -/
def standardize_ftd_data (raw : List (List String)) (year : Int) :
    Except Unit Frame :=
  if raw.length < 2 then Except.ok {}
  else
    match processFtdRows year (raw.drop 1) with
    | Except.error e => Except.error e
    | Except.ok rows => Except.ok { cols := ftdCols, rows := rows }

/-!
## Filters and concatenation
-/

/-- Model of `filter_by_team(df, teams)` (`data_processor.py` lines 311-316). -/
def filter_by_team (f : Frame) (teams : List String) : Frame :=
  if f.rows.isEmpty || !f.cols.team || teams.isEmpty then f
  else { f with rows := f.rows.filter (fun r => teams.contains r.team) }

/-- Model of `filter_by_agent(df, agents)` (`data_processor.py` lines 319-324). -/
def filter_by_agent (f : Frame) (agents : List String) : Frame :=
  if f.rows.isEmpty || !f.cols.agent_name || agents.isEmpty then f
  else { f with rows := f.rows.filter (fun r => agents.contains r.agent_name) }

/-- Union of two column sets (`pd.concat` aligns on the union of columns). -/
def colsUnion (a b : Cols) : Cols :=
  { date := a.date || b.date
    agent_name := a.agent_name || b.agent_name
    team := a.team || b.team
    is_present := a.is_present || b.is_present
    recharge_count := a.recharge_count || b.recharge_count
    total_calls := a.total_calls || b.total_calls
    answered_calls := a.answered_calls || b.answered_calls
    not_connected := a.not_connected || b.not_connected
    people_recalled := a.people_recalled || b.people_recalled
    friend_added := a.friend_added || b.friend_added
    ftd_count := a.ftd_count || b.ftd_count
    deposit_amount := a.deposit_amount || b.deposit_amount
    social_media_added := a.social_media_added || b.social_media_added }

/-- Model of `pd.concat([a, b], ignore_index=True)`: rows appended, columns unioned
(absent columns are default-filled, which the record defaults model). -/
def concatFrames (a b : Frame) : Frame :=
  { cols := colsUnion a.cols b.cols, rows := a.rows ++ b.rows }

/-!
## Metrics engine (`metrics.py`)
-/

/-- Test whether the first character list starts with the second. -/
def startsWithChars : List Char → List Char → Bool
  | _, [] => true
  | [], _ :: _ => false
  | a :: as, b :: bs => a == b && startsWithChars as bs

/-- Occurrence of a pattern anywhere in a character list. -/
def containsSub (cs pat : List Char) : Bool :=
  match cs with
  | [] => pat.isEmpty
  | _ :: rest => startsWithChars cs pat || containsSub rest pat

/-- Substring test, Python `pat in s`. -/
def strContains (s pat : String) : Bool := containsSub s.data pat.data

/-- Model of `str.upper()` (ASCII range; agent names and the leader-marker
patterns are ASCII). -/
def pyUpper (s : String) : String := String.mk (s.data.map Char.toUpper)

/-- Team-leader classification used by `calculate_kpis` (lines 113-115):
`("- TL " in x.upper() or " TL " in x.upper()) and "- ATL " not in x.upper()`. -/
def isTL (name : String) : Bool :=
  let u := pyUpper name
  (strContains u "- TL " || strContains u " TL ") && !(strContains u "- ATL ")

/-- Number of distinct values (`Series.nunique` over non-null strings). -/
def nunique (l : List String) : Nat := l.dedup.length

/-- Maximum of a non-empty list of integers (`Series.max` over day numbers). -/
def listMax : List Int → Int
  | [] => 0
  | x :: xs => xs.foldl max x

/-- The non-null dates of a record list (`Series.dropna`). -/
def datesOf (rows : List Rec) : List Date := rows.filterMap (fun r => r.date)

/-- Present-only view of a frame (`df[df["is_present"] == True]` when the
column exists, the frame itself otherwise). -/
def presentRows (f : Frame) : List Rec :=
  if f.cols.is_present then f.rows.filter (fun r => r.is_present) else f.rows

/-- Records inside the last-`days`-days window ending at the maximum
non-null date of the present view (`date >= max_date - timedelta(days)`;
`NaT` compares false), or the whole present view when no window applies. -/
def recentRows (f : Frame) (days : Int) : List Rec :=
  if f.cols.date && !(datesOf (presentRows f)).isEmpty then
    (presentRows f).filter (fun r =>
      match r.date with
      | some d => listMax ((datesOf (presentRows f)).map Date.toDays) - days ≤ d.toDays
      | none => false)
  else presentRows f

/-- Model of `get_active_agents_count(df, days)` (`metrics.py` lines 10-43):
present-only records, windowed to the last `days` days before the maximum
date when any non-null date exists, then distinct agent names. -/
def get_active_agents_count (f : Frame) (days : Int) : Int :=
  if f.rows.isEmpty || !f.cols.agent_name then 0
  else if (presentRows f).isEmpty then 0
  else if (recentRows f days).isEmpty then 0
  else (nunique ((recentRows f days).map (fun r => r.agent_name)) : Int)

/-- Sum of an integer column (`int(df[col].sum())`), 0 when absent. -/
def colSum (pres : Bool) (rows : List Rec) (g : Rec → Int) : Int :=
  if pres then (rows.map g).sum else 0

/-- The TL/agent split of `people_recalled` — leader partition
(`vip_recalled`). -/
def vipRecalledOf (f : Frame) : Int :=
  if f.cols.agent_name && f.cols.people_recalled then
    ((f.rows.filter (fun r => isTL r.agent_name)).map (fun r => r.people_recalled)).sum
  else 0

/-- The TL/agent split of `people_recalled` — agent partition
(`people_recalled`), with the no-split fallback. -/
def peopleRecalledOf (f : Frame) : Int :=
  if f.cols.agent_name && f.cols.people_recalled then
    ((f.rows.filter (fun r => !isTL r.agent_name)).map (fun r => r.people_recalled)).sum
  else colSum f.cols.people_recalled f.rows (fun r => r.people_recalled)

/-- The FTD cutoff `pd.Timestamp(2026, 1, 6)`. -/
def jan6_2026 : Date := { year := 2026, month := 1, day := 6 }

/-- Rows of the designated FTD team (`df[df["_team"] == "FTD TEAM"]`). -/
def ftdTeamRows (rows : List Rec) : List Rec :=
  rows.filter (fun r => r.team == "FTD TEAM")

/-- Cutoff test on a nullable date: `NaT < ts` and `NaT >= ts` are both false, so null dates join neither
side of the cutoff split. -/
def dateBeforeCutoff (d? : Option Date) : Bool :=
  match d? with
  | some d => d.toDays < jan6_2026.toDays
  | none => false

/-- Strict complement of the cutoff test on non-null dates. -/
def dateOnOrAfterCutoff (d? : Option Date) : Bool :=
  match d? with
  | some d => jan6_2026.toDays ≤ d.toDays
  | none => false

/-- The `ftd_result` accumulator (`metrics.py` lines 129-141): sum of
`ftd_count` over FTD-team rows strictly before the cutoff, gated on the
`_team`, `ftd_count` and `date` columns all being present. -/
def ftdResultOf (f : Frame) : Int :=
  if f.cols.team && f.cols.ftd_count && f.cols.date then
    let t := ftdTeamRows f.rows
    if t.isEmpty then 0
    else
      let before := t.filter (fun r => dateBeforeCutoff r.date)
      if before.isEmpty then 0 else (before.map (fun r => r.ftd_count)).sum
  else 0

/-- The `ftd_as_recharge` accumulator: `ftd_count` of FTD-team rows on or after
the cutoff, folded into `recharge_count`. -/
def ftdAsRechargeOf (f : Frame) : Int :=
  if f.cols.team && f.cols.ftd_count && f.cols.date then
    let t := ftdTeamRows f.rows
    if t.isEmpty then 0
    else
      let later := t.filter (fun r => dateOnOrAfterCutoff r.date)
      if later.isEmpty then 0 else (later.map (fun r => r.ftd_count)).sum
  else 0

/-- Round a rational to the nearest integer, half to even (the rounding
Python's `round` applies). -/
def round2Int (s : ℚ) : Int :=
  if s - (⌊s⌋ : ℚ) < 1/2 then ⌊s⌋
  else if 1/2 < s - (⌊s⌋ : ℚ) then ⌊s⌋ + 1
  else if ⌊s⌋ % 2 = 0 then ⌊s⌋ else ⌊s⌋ + 1

/-- Python `round(x, 2)` over exact rationals: round half to even at the
second decimal place. -/
def pyRound2 (q : ℚ) : ℚ := (round2Int (q * 100) : ℚ) / 100

/-- The KPI summary returned by `calculate_kpis`. -/
structure KPIs where
  active_agents : Int
  recharge_count : Int
  total_calls : Int
  answered_calls : Int
  not_connected : Int
  connection_rate : ℚ
  people_recalled : Int
  vip_recalled : Int
  friend_added : Int
  ftd_result : Int
  conversion_rate_calls : ℚ
  conversion_rate_recalled : ℚ
deriving Repr, DecidableEq

/-- The all-zero summary returned for an empty frame. -/
def zeroKPIs : KPIs :=
  { active_agents := 0, recharge_count := 0, total_calls := 0, answered_calls := 0,
    not_connected := 0, connection_rate := 0, people_recalled := 0, vip_recalled := 0,
    friend_added := 0, ftd_result := 0, conversion_rate_calls := 0,
    conversion_rate_recalled := 0 }

/-- Model of `calculate_kpis(df)` (`metrics.py` lines 67-166). -/
def calculate_kpis (f : Frame) : KPIs :=
  if f.rows.isEmpty then zeroKPIs
  else
    let active := get_active_agents_count f 7
    let recharge0 := colSum f.cols.recharge_count f.rows (fun r => r.recharge_count)
    let total_calls := colSum f.cols.total_calls f.rows (fun r => r.total_calls)
    let answered := colSum f.cols.answered_calls f.rows (fun r => r.answered_calls)
    let notConn := colSum f.cols.not_connected f.rows (fun r => r.not_connected)
    let friendAdded := colSum f.cols.friend_added f.rows (fun r => r.friend_added)
    let vip := vipRecalledOf f
    let people := peopleRecalledOf f
    let ftdResult := ftdResultOf f
    let recharge := recharge0 + ftdAsRechargeOf f
    let connectionRate : ℚ :=
      if 0 < total_calls then (answered : ℚ) / (total_calls : ℚ) * 100 else 0
    let conversionRateCalls : ℚ :=
      if 0 < total_calls then (answered : ℚ) / (total_calls : ℚ) * 100 else 0
    let totalRecalled := people + vip
    let conversionRateRecalled : ℚ :=
      if 0 < answered then (totalRecalled : ℚ) / (answered : ℚ) * 100 else 0
    { active_agents := active
      recharge_count := recharge
      total_calls := total_calls
      answered_calls := answered
      not_connected := notConn
      connection_rate := pyRound2 connectionRate
      people_recalled := people
      vip_recalled := vip
      friend_added := friendAdded
      ftd_result := ftdResult
      conversion_rate_calls := pyRound2 conversionRateCalls
      conversion_rate_recalled := pyRound2 conversionRateRecalled }

/-!
## FTD metric functions and the missing `FTD_TEAM_LEADER` import

Each of `calculate_ftd_kpis`, `calculate_ftd_agent_metrics` and
`calculate_ftd_daily_metrics` begins with
`from utils.data_processor import FTD_TEAM_LEADER`.  The module-level
bindings of `utils/data_processor.py` are listed below; `FTD_TEAM_LEADER`
is not among them (nor is it assigned onto the module anywhere else in the
repository), so the import raises `ImportError` before any other statement
runs. -/

/-- The module-level names bound by `utils/data_processor.py` (imports,
constants and function definitions, in source order). -/
def dataProcessorModuleNames : List String :=
  ["pd", "np", "datetime", "COLUMN_POSITIONS", "COLUMN_POSITIONS_2026",
   "FTD_COLUMN_POSITIONS", "standardize_data", "standardize_ftd_data",
   "filter_by_date_range", "filter_by_team", "filter_by_agent",
   "get_unique_agents", "get_unique_dates", "prepare_export_data"]

/-- Model of `from utils.data_processor import FTD_TEAM_LEADER`: succeeds with the
bound value when the module defines the name, raises `ImportError`
(`Except.error`) otherwise.  The success value is never reached because the
name is absent; the empty string stands in for the (nonexistent) binding. -/
def importFTD_TEAM_LEADER : Except Unit String :=
  if dataProcessorModuleNames.contains "FTD_TEAM_LEADER" then Except.ok ""
  else Except.error ()

/-- The FTD KPI summary of `calculate_ftd_kpis`. -/
structure FtdKPIs where
  active_agents : Int
  total_recharge : Int
  total_ftd : Int
  total_calls : Int
  answered_calls : Int
  not_connected : Int
  social_media_added : Int
  connection_rate : ℚ
  ftd_conversion_rate : ℚ
deriving Repr, DecidableEq

/-- Model of `calculate_ftd_kpis(df)` (`metrics.py` lines 350-411).  The
leading name lookup fails, so the rest of the body is unreachable on every
input. -/
def calculate_ftd_kpis (f : Frame) : Except Unit FtdKPIs := do
  let ftdLeader ← importFTD_TEAM_LEADER
  if f.rows.isEmpty then
    pure { active_agents := 0, total_recharge := 0, total_ftd := 0, total_calls := 0,
           answered_calls := 0, not_connected := 0, social_media_added := 0,
           connection_rate := 0, ftd_conversion_rate := 0 }
  else
    let agents :=
      if f.cols.agent_name then f.rows.filter (fun r => r.agent_name != ftdLeader)
      else f.rows
    let active : Int := if f.cols.agent_name then (nunique (agents.map (fun r => r.agent_name)) : Int) else 0
    let totalRecharge := colSum f.cols.recharge_count f.rows (fun r => r.recharge_count)
    let totalFtd := colSum f.cols.ftd_count f.rows (fun r => r.ftd_count)
    let totalCalls := colSum f.cols.total_calls f.rows (fun r => r.total_calls)
    let answered := colSum f.cols.answered_calls f.rows (fun r => r.answered_calls)
    let notConn := colSum f.cols.not_connected f.rows (fun r => r.not_connected)
    let social := colSum f.cols.social_media_added f.rows (fun r => r.social_media_added)
    let connRate : ℚ := if 0 < totalCalls then (answered : ℚ) / (totalCalls : ℚ) * 100 else 0
    let ftdConv : ℚ := if 0 < answered then (totalFtd : ℚ) / (answered : ℚ) * 100 else 0
    pure { active_agents := active, total_recharge := totalRecharge, total_ftd := totalFtd,
           total_calls := totalCalls, answered_calls := answered, not_connected := notConn,
           social_media_added := social, connection_rate := pyRound2 connRate,
           ftd_conversion_rate := pyRound2 ftdConv }

/-- One row of the per-agent FTD aggregation. -/
structure FtdAgentRow where
  agent_name : String
  recharge_count : Int
  total_calls : Int
  answered_calls : Int
  not_connected : Int
  social_media_added : Int
  ftd_count : Int
  connection_rate : ℚ
  ftd_conversion_rate : ℚ
deriving Repr, DecidableEq

/-- Stable insertion of one element into a list sorted ascending by a
string key (`groupby` orders group keys ascending). -/
def insertByKey (key : FtdAgentRow → String) (x : FtdAgentRow) :
    List FtdAgentRow → List FtdAgentRow
  | [] => [x]
  | y :: ys => if key x ≤ key y then x :: y :: ys else y :: insertByKey key x ys

/-- Insertion sort by string key. -/
def sortByKey (key : FtdAgentRow → String) : List FtdAgentRow → List FtdAgentRow
  | [] => []
  | x :: xs => insertByKey key x (sortByKey key xs)

/-- Aggregate one agent's group (sums and the two zero-guarded rates). -/
def ftdAgentGroup (f : Frame) (rows : List Rec) (name : String) : FtdAgentRow :=
  let recharge := colSum f.cols.recharge_count rows (fun r => r.recharge_count)
  let totalCalls := colSum f.cols.total_calls rows (fun r => r.total_calls)
  let answered := colSum f.cols.answered_calls rows (fun r => r.answered_calls)
  let notConn := colSum f.cols.not_connected rows (fun r => r.not_connected)
  let social := colSum f.cols.social_media_added rows (fun r => r.social_media_added)
  let ftd := colSum f.cols.ftd_count rows (fun r => r.ftd_count)
  { agent_name := name, recharge_count := recharge, total_calls := totalCalls,
    answered_calls := answered, not_connected := notConn, social_media_added := social,
    ftd_count := ftd
    connection_rate := if 0 < totalCalls then (answered : ℚ) / (totalCalls : ℚ) * 100 else 0
    ftd_conversion_rate := if 0 < answered then (ftd : ℚ) / (answered : ℚ) * 100 else 0 }

/-- Model of `calculate_ftd_agent_metrics(df)` (`metrics.py` lines 414-453): a
leading failing import; the unreachable body filters out the leader and
groups by agent name. -/
def calculate_ftd_agent_metrics (f : Frame) : Except Unit (List FtdAgentRow) := do
  let ftdLeader ← importFTD_TEAM_LEADER
  if f.rows.isEmpty || !f.cols.agent_name then pure []
  else
    let agents := f.rows.filter (fun r => r.agent_name != ftdLeader)
    if agents.isEmpty then pure []
    else
      let keys := (agents.map (fun r => r.agent_name)).dedup
      let grouped := keys.map (fun k =>
        ftdAgentGroup f (agents.filter (fun r => r.agent_name == k)) k)
      pure (sortByKey (fun r => r.agent_name) grouped)

/-- One row of the per-day FTD aggregation. -/
structure FtdDailyRow where
  date : Date
  active_agents : Int
  recharge_count : Int
  total_calls : Int
  answered_calls : Int
  not_connected : Int
  social_media_added : Int
  ftd_count : Int
  connection_rate : ℚ
  ftd_conversion_rate : ℚ
deriving Repr, DecidableEq

/-- Ascending-by-day stable insertion for the daily grouping. -/
def insertByDay (x : FtdDailyRow) : List FtdDailyRow → List FtdDailyRow
  | [] => [x]
  | y :: ys => if x.date.toDays ≤ y.date.toDays then x :: y :: ys else y :: insertByDay x ys

/-- Insertion sort of daily rows by date. -/
def sortByDay : List FtdDailyRow → List FtdDailyRow
  | [] => []
  | x :: xs => insertByDay x (sortByDay xs)

/-- Model of `calculate_ftd_daily_metrics(df)` (`metrics.py` lines 456-493): a
leading failing import; the unreachable body groups leader-excluded rows by
non-null date. -/
def calculate_ftd_daily_metrics (f : Frame) : Except Unit (List FtdDailyRow) := do
  let ftdLeader ← importFTD_TEAM_LEADER
  if f.rows.isEmpty || !f.cols.date then pure []
  else
    let agents :=
      if f.cols.agent_name then f.rows.filter (fun r => r.agent_name != ftdLeader)
      else f.rows
    let keys := (datesOf agents).dedup
    let grouped := keys.map (fun k =>
      let rows := agents.filter (fun r => r.date == some k)
      let totalCalls := colSum f.cols.total_calls rows (fun r => r.total_calls)
      let answered := colSum f.cols.answered_calls rows (fun r => r.answered_calls)
      let ftd := colSum f.cols.ftd_count rows (fun r => r.ftd_count)
      { date := k
        active_agents := (nunique (rows.map (fun r => r.agent_name)) : Int)
        recharge_count := colSum f.cols.recharge_count rows (fun r => r.recharge_count)
        total_calls := totalCalls
        answered_calls := answered
        not_connected := colSum f.cols.not_connected rows (fun r => r.not_connected)
        social_media_added := colSum f.cols.social_media_added rows (fun r => r.social_media_added)
        ftd_count := ftd
        connection_rate := if 0 < totalCalls then (answered : ℚ) / (totalCalls : ℚ) * 100 else 0
        ftd_conversion_rate := if 0 < answered then (ftd : ℚ) / (answered : ℚ) * 100 else 0
        : FtdDailyRow })
    pure (sortByDay grouped)

/-- The numeric column of an FTD agent-metrics row selected by name
(`nlargest(top_n, metric)`), `none` when no such column exists. -/
def ftdAgentMetricValue (row : FtdAgentRow) (metric : String) : Option ℚ :=
  if metric == "recharge_count" then some (row.recharge_count : ℚ)
  else if metric == "total_calls" then some (row.total_calls : ℚ)
  else if metric == "answered_calls" then some (row.answered_calls : ℚ)
  else if metric == "not_connected" then some (row.not_connected : ℚ)
  else if metric == "social_media_added" then some (row.social_media_added : ℚ)
  else if metric == "ftd_count" then some (row.ftd_count : ℚ)
  else if metric == "connection_rate" then some row.connection_rate
  else if metric == "ftd_conversion_rate" then some row.ftd_conversion_rate
  else none

/-- Column names of the per-agent FTD aggregation result
(`metric not in agent_metrics.columns`). -/
def ftdAgentMetricsColumns : List String :=
  ["agent_name", "recharge_count", "total_calls", "answered_calls",
   "not_connected", "social_media_added", "ftd_count", "connection_rate",
   "ftd_conversion_rate"]

/-- Stable descending insertion by metric value (`nlargest` keeps
first-encountered order among ties). -/
def insertDescBy (v : FtdAgentRow → ℚ) (x : FtdAgentRow) :
    List FtdAgentRow → List FtdAgentRow
  | [] => [x]
  | y :: ys => if v y < v x then x :: y :: ys else y :: insertDescBy v x ys

/-- Stable descending sort by metric value. -/
def sortDescBy (v : FtdAgentRow → ℚ) : List FtdAgentRow → List FtdAgentRow
  | [] => []
  | x :: xs => insertDescBy v x (sortDescBy v xs)

/-- Model of `get_ftd_top_performers(df, metric, top_n)` (`metrics.py` lines
496-502): calls `calculate_ftd_agent_metrics` first, so the `ImportError`
raised there propagates unconditionally. -/
def get_ftd_top_performers (f : Frame) (metric : String) (topN : Nat) :
    Except Unit (List FtdAgentRow) := do
  let agentMetrics ← calculate_ftd_agent_metrics f
  if agentMetrics.isEmpty || !(ftdAgentMetricsColumns.contains metric) then pure []
  else
    pure ((sortDescBy (fun r => (ftdAgentMetricValue r metric).getD 0) agentMetrics).take topN)

/-!
## Helper lemmas
-/

/-- A successful `Timestamp.replace(year=y)` yields the target year. -/
theorem replaceYear_year {dt : Date} {y : Int} {d : Date}
    (h : replaceYear dt y = some d) : d.year = y := by
  unfold replaceYear at h
  split at h
  · cases h; rfl
  · cases h

/-- Whatever parse path succeeds, the returned date carries the target
year: the final `replace(year=target_year)` overwrites it. -/
theorem parse_date_ok_year {s : String} {y : Int} {d : Date}
    (h : parse_date s y = Except.ok (some d)) : d.year = y := by
  unfold parse_date at h
  split at h
  · simp at h
  · split at h
    · simp at h
    · split at h
      · rename_i heq
        simp only [Except.ok.injEq, Option.some.injEq] at h
        exact h ▸ replaceYear_year heq
      · cases h

/-- A record produced by the standard per-row body has a date with the
target year (when non-null). -/
theorem processStdRow_year {b : Bool} {y : Int} {row : List String} {r : Rec} {d : Date}
    (h : processStdRow b y row = Except.ok (some r)) (hd : r.date = some d) :
    d.year = y := by
  unfold processStdRow at h
  split at h
  · simp at h
  · split at h
    · cases h
    · rename_i dv hdv
      split at h
      · simp at h
      · simp only [Except.ok.injEq, Option.some.injEq] at h
        subst h
        simp only [stdRecOf] at hd
        rw [hd] at hdv
        exact parse_date_ok_year hdv

/-- A record produced by the FTD per-row body has a date with the target
year (when non-null). -/
theorem processFtdRow_year {y : Int} {row : List String} {r : Rec} {d : Date}
    (h : processFtdRow y row = Except.ok (some r)) (hd : r.date = some d) :
    d.year = y := by
  unfold processFtdRow at h
  split at h
  · simp at h
  · split at h
    · cases h
    · rename_i dv hdv
      split at h
      · simp at h
      · simp only [Except.ok.injEq, Option.some.injEq] at h
        subst h
        simp only [ftdRecOf] at hd
        rw [hd] at hdv
        exact parse_date_ok_year hdv

/-- Every record of a successful standard normalization comes from one
successful per-row call. -/
theorem processStdRows_mem {b : Bool} {y : Int} {L : List (List String)} {rs : List Rec}
    {r : Rec} (h : processStdRows b y L = Except.ok rs) (hr : r ∈ rs) :
    ∃ row, processStdRow b y row = Except.ok (some r) := by
  induction L generalizing rs with
  | nil =>
    unfold processStdRows at h
    simp only [Except.ok.injEq] at h
    subst h
    cases hr
  | cons row rest ih =>
    unfold processStdRows at h
    split at h
    · cases h
    · rename_i r? hrow
      split at h
      · cases h
      · rename_i rs' hrest
        cases r? with
        | none =>
          simp only [Except.ok.injEq] at h
          subst h
          exact ih hrest hr
        | some r0 =>
          simp only [Except.ok.injEq] at h
          subst h
          rcases List.mem_cons.mp hr with h0 | h1
          · exact ⟨row, h0 ▸ hrow⟩
          · exact ih hrest h1

/-- Every record of a successful FTD normalization comes from one
successful per-row call. -/
theorem processFtdRows_mem {y : Int} {L : List (List String)} {rs : List Rec}
    {r : Rec} (h : processFtdRows y L = Except.ok rs) (hr : r ∈ rs) :
    ∃ row, processFtdRow y row = Except.ok (some r) := by
  induction L generalizing rs with
  | nil =>
    unfold processFtdRows at h
    simp only [Except.ok.injEq] at h
    subst h
    cases hr
  | cons row rest ih =>
    unfold processFtdRows at h
    split at h
    · cases h
    · rename_i r? hrow
      split at h
      · cases h
      · rename_i rs' hrest
        cases r? with
        | none =>
          simp only [Except.ok.injEq] at h
          subst h
          exact ih hrest hr
        | some r0 =>
          simp only [Except.ok.injEq] at h
          subst h
          rcases List.mem_cons.mp hr with h0 | h1
          · exact ⟨row, h0 ▸ hrow⟩
          · exact ih hrest h1

/-- Rows of a successful `standardize_data` all come from per-row calls. -/
theorem standardize_data_rows {raw : List (List String)} {y : Int} {f : Frame} {r : Rec}
    (h : standardize_data raw y = Except.ok f) (hr : r ∈ f.rows) :
    ∃ row, processStdRow (y == 2026) y row = Except.ok (some r) := by
  unfold standardize_data at h
  split at h
  · simp only [Except.ok.injEq] at h
    subst h
    cases hr
  · split at h
    · cases h
    · rename_i rs hrs
      simp only [Except.ok.injEq] at h
      subst h
      exact processStdRows_mem hrs hr

/-- Rows of a successful `standardize_ftd_data` all come from per-row
calls. -/
theorem standardize_ftd_data_rows {raw : List (List String)} {y : Int} {f : Frame} {r : Rec}
    (h : standardize_ftd_data raw y = Except.ok f) (hr : r ∈ f.rows) :
    ∃ row, processFtdRow y row = Except.ok (some r) := by
  unfold standardize_ftd_data at h
  split at h
  · simp only [Except.ok.injEq] at h
    subst h
    cases hr
  · split at h
    · cases h
    · rename_i rs hrs
      simp only [Except.ok.injEq] at h
      subst h
      exact processFtdRows_mem hrs hr

/-!
## Claim C1: the target year overrides any source year
-/

/-- C1.  For every call `standardize_data(raw_values, year)` and
`standardize_ftd_data(raw_values, year)`, every record in the returned
dataset whose date field is non-null has a date whose year component equals
the `year` argument, regardless of any year digits present in the source
date string. -/
theorem c1_year_forced (raw : List (List String)) (y : Int) (f : Frame)
    (h : standardize_data raw y = Except.ok f ∨ standardize_ftd_data raw y = Except.ok f) :
    ∀ r ∈ f.rows, ∀ d : Date, r.date = some d → d.year = y := by
  intro r hr d hd
  cases h with
  | inl hstd =>
    obtain ⟨row, hrow⟩ := standardize_data_rows hstd hr
    exact processStdRow_year hrow hd
  | inr hftd =>
    obtain ⟨row, hrow⟩ := standardize_ftd_data_rows hftd hr
    exact processFtdRow_year hrow hd

/-- Demonstration record: what the row `["11/02", "BOB"]` becomes at target
year 2026 (month/day fallback path). -/
def c1rec : Rec :=
  { date := some { year := 2026, month := 11, day := 2 }, agent_name := "BOB",
    yearTag := 2026 }

/-- Demonstration frame for the C1 witness. -/
def c1frame : Frame := { cols := stdCols, rows := [c1rec] }

/-- Witness for C1: the hypotheses hold at a concrete input and the
conclusion yields the forced year. -/
theorem c1_year_forced_witness :
    standardize_data [["DATE", "AGENT"], ["11/02", "BOB"]] 2026 = Except.ok c1frame ∧
    (Date.mk 2026 11 2).year = 2026 :=
  ⟨rfl,
   c1_year_forced [["DATE", "AGENT"], ["11/02", "BOB"]] 2026 c1frame (Or.inl rfl)
     c1rec (List.mem_singleton.mpr rfl) (Date.mk 2026 11 2) rfl⟩

/-!
## Claim C2: `standardize_data` can raise

The claim states `standardize_data` never propagates an error.  The code
contradicts it: the year-forcing step `parsed_date.replace(year=target_year)`
sits outside every `try`/`except` block, and raises `ValueError` when the
parsed date is Feb 29 of a leap year while the target year is not a leap
year (no Feb 29 exists there).  Given the module's pervasive
catch-everything tolerance policy, this is a slip in the code rather than
an intended exception path. -/

/-- C2 (failing input).  `standardize_data` applied to a well-formed sheet
whose single data row carries the date `"2024-02-29"` with target year 2025
raises (models the uncaught `ValueError` from
`Timestamp("2024-02-29").replace(year=2025)`), instead of returning a
result as the claim asserts. -/
theorem c2_feb29_raises :
    standardize_data [["DATE", "AGENT"], ["2024-02-29", "ALICE"]] 2025 =
      Except.error () := rfl

/-!
## Claim C3: agent-name guarantees of the output
-/

/-- C3 (counterexample).  A row whose raw agent cell is empty while another
cell is non-empty is NOT dropped: `replace('', pd.NA)` turns the empty cell
into a missing value, `astype(str)` renders it as the literal text
`"<NA>"`, and the `!= ""` / `!= "nan"` filters let it through.  The
returned dataset contains one record, with agent name `"<NA>"`. -/
theorem c3_counterexample :
    (standardize_data [["DATE", "AGENT", "C", "D"], ["", "", "", "5"]] 2025).map
      (fun f => f.rows.map (fun r => r.agent_name)) = Except.ok ["<NA>"] := rfl

/-- A surviving standard row has a non-empty, non-`"nan"` agent name and
`is_present = true`. -/
theorem processStdRow_agent {b : Bool} {y : Int} {row : List String} {r : Rec}
    (h : processStdRow b y row = Except.ok (some r)) :
    r.agent_name ≠ "" ∧ r.agent_name ≠ "nan" ∧ r.is_present = true := by
  unfold processStdRow at h
  split at h
  · simp at h
  · split at h
    · cases h
    · split at h
      · simp at h
      · rename_i hcond
        simp only [Bool.or_eq_true, beq_iff_eq, not_or] at hcond
        simp only [Except.ok.injEq, Option.some.injEq] at h
        subst h
        exact ⟨hcond.1, hcond.2, rfl⟩

/-- C3 (amended).  Every record in the output of `standardize_data` has a
non-empty agent name that is also not the literal text `"nan"` (rows whose
trimmed agent string is `""` or `"nan"` are dropped), and has
`is_present = true`; however, a row whose raw agent cell was empty while
other cells were non-empty is retained, with the placeholder agent name
`"<NA>"`, rather than dropped. -/
theorem c3_amended (raw : List (List String)) (y : Int) (f : Frame)
    (h : standardize_data raw y = Except.ok f) :
    ∀ r ∈ f.rows, r.agent_name ≠ "" ∧ r.agent_name ≠ "nan" ∧ r.is_present = true := by
  intro r hr
  obtain ⟨row, hrow⟩ := standardize_data_rows h hr
  exact processStdRow_agent hrow

/-- Demonstration record for the C3 witness: the `"<NA>"` survivor of a row
with an empty agent cell and a recharge count of 5. -/
def c3narec : Rec :=
  { date := none, agent_name := "<NA>", recharge_count := 5, yearTag := 2025 }

/-- Witness for C3 (amended): the hypotheses hold at a concrete input. -/
theorem c3_amended_witness :
    standardize_data [["DATE", "AGENT", "C", "D"], ["", "", "", "5"]] 2025 =
        Except.ok { cols := stdCols, rows := [c3narec] } ∧
    (c3narec.agent_name ≠ "" ∧ c3narec.agent_name ≠ "nan" ∧ c3narec.is_present = true) :=
  ⟨rfl,
   c3_amended [["DATE", "AGENT", "C", "D"], ["", "", "", "5"]] 2025
     { cols := stdCols, rows := [c3narec] } rfl c3narec (List.mem_singleton.mpr rfl)⟩

/-!
## Claim C4: the leader/agent split is a true partition
-/

/-- Splitting a mapped integer sum along a Boolean predicate. -/
theorem sum_map_filter_split (p : Rec → Bool) (g : Rec → Int) (l : List Rec) :
    ((l.filter p).map g).sum + ((l.filter (fun r => !p r)).map g).sum = (l.map g).sum := by
  induction l with
  | nil => simp
  | cons a t ih =>
    cases hp : p a with
    | true =>
      simp [List.filter_cons, hp]
      omega
    | false =>
      simp [List.filter_cons, hp]
      omega

/-- C4.  For every record set having `agent_name` and `people_recalled`
columns, the `people_recalled` and `vip_recalled` values returned by
`calculate_kpis` sum exactly to the total of the `people_recalled` field
over the whole set: the leader/agent classification partitions the records
with no double counting and no loss. -/
theorem c4_recall_partition (f : Frame) (ha : f.cols.agent_name = true)
    (hp : f.cols.people_recalled = true) :
    (calculate_kpis f).people_recalled + (calculate_kpis f).vip_recalled =
      (f.rows.map (fun r => r.people_recalled)).sum := by
  unfold calculate_kpis
  split
  · rename_i hempty
    simp [zeroKPIs, List.isEmpty_iff.mp hempty]
  · show peopleRecalledOf f + vipRecalledOf f = _
    unfold peopleRecalledOf vipRecalledOf
    rw [ha, hp]
    simp only [Bool.and_self, if_true]
    rw [Int.add_comm]
    exact sum_map_filter_split (fun r => isTL r.agent_name) _ f.rows

/-- Demonstration frame for the C4 witness: one leader row and one agent
row. -/
def c4frame : Frame :=
  { cols := { agent_name := true, people_recalled := true },
    rows := [{ agent_name := "JUAN - TL MIKE", people_recalled := 3 },
             { agent_name := "PEDRO", people_recalled := 4 }] }

/-- Witness for C4: the column hypotheses hold at a concrete two-row frame
and the partition identity follows. -/
theorem c4_recall_partition_witness :
    c4frame.cols.agent_name = true ∧ c4frame.cols.people_recalled = true ∧
    (calculate_kpis c4frame).people_recalled + (calculate_kpis c4frame).vip_recalled =
      (c4frame.rows.map (fun r => r.people_recalled)).sum :=
  ⟨rfl, rfl, c4_recall_partition c4frame rfl rfl⟩

/-!
## Claim C9: empty filter selections are no-ops
-/

/-- C9.  For every record set, `filter_by_team(records, [])` and
`filter_by_agent(records, [])` return the input unchanged; a non-empty
selection keeps exactly the records whose team (respectively agent name)
is in the given list. -/
theorem c9_filter_conventions (f : Frame) (teams agents : List String) :
    (filter_by_team f [] = f ∧ filter_by_agent f [] = f) ∧
    (teams ≠ [] → f.cols.team = true →
      (filter_by_team f teams).rows = f.rows.filter (fun r => teams.contains r.team)) ∧
    (agents ≠ [] → f.cols.agent_name = true →
      (filter_by_agent f agents).rows =
        f.rows.filter (fun r => agents.contains r.agent_name)) := by
  refine ⟨⟨?_, ?_⟩, ?_, ?_⟩
  · simp [filter_by_team]
  · simp [filter_by_agent]
  · intro hne hcol
    unfold filter_by_team
    rw [hcol]
    simp only [Bool.not_true, Bool.or_false, Bool.false_or]
    rw [List.isEmpty_eq_false.mpr hne]
    simp only [Bool.or_false]
    split
    · rename_i he
      rw [List.isEmpty_iff.mp he]
      simp
    · rfl
  · intro hne hcol
    unfold filter_by_agent
    rw [hcol]
    simp only [Bool.not_true, Bool.or_false, Bool.false_or]
    rw [List.isEmpty_eq_false.mpr hne]
    simp only [Bool.or_false]
    split
    · rename_i he
      rw [List.isEmpty_iff.mp he]
      simp
    · rfl

/-- Demonstration frame for the C9 witness. -/
def c9frame : Frame :=
  { cols := { team := true, agent_name := true },
    rows := [{ agent_name := "A", team := "TEAM A" },
             { agent_name := "B", team := "TEAM B" }] }

/-- Witness for C9: both conventions hold at a concrete frame and a
concrete non-empty selection. -/
theorem c9_filter_conventions_witness :
    (["TEAM A"] ≠ ([] : List String)) ∧ c9frame.cols.team = true ∧
    (filter_by_team c9frame [] = c9frame ∧ filter_by_agent c9frame [] = c9frame) ∧
    (filter_by_team c9frame ["TEAM A"]).rows =
      c9frame.rows.filter (fun r => (["TEAM A"] : List String).contains r.team) :=
  ⟨by simp, rfl, (c9_filter_conventions c9frame ["TEAM A"] ["A"]).1,
   (c9_filter_conventions c9frame ["TEAM A"] ["A"]).2.1 (by simp) rfl⟩

/-!
## Claim C6: the FTD cutoff splits `ftd_count` between the two totals
-/

/-- Sum of `ftd_count` over FTD-team rows strictly before the cutoff. -/
def ftdBeforeSum (rows : List Rec) : Int :=
  (((ftdTeamRows rows).filter (fun r => dateBeforeCutoff r.date)).map
    (fun r => r.ftd_count)).sum

/-- Sum of `ftd_count` over FTD-team rows on or after the cutoff. -/
def ftdAfterSum (rows : List Rec) : Int :=
  (((ftdTeamRows rows).filter (fun r => dateOnOrAfterCutoff r.date)).map
    (fun r => r.ftd_count)).sum

/-- With the three gate columns present, the `ftd_result` accumulator is
the before-cutoff sum (the `isEmpty` guards are redundant: an empty
selection sums to 0 anyway). -/
theorem ftdResultOf_eq (f : Frame) (h1 : f.cols.team = true)
    (h2 : f.cols.ftd_count = true) (h3 : f.cols.date = true) :
    ftdResultOf f = ftdBeforeSum f.rows := by
  unfold ftdResultOf ftdBeforeSum
  rw [h1, h2, h3]
  simp only [Bool.and_self, if_true]
  split
  · rename_i ht
    rw [List.isEmpty_iff.mp ht]
    simp
  · split
    · rename_i hb
      rw [List.isEmpty_iff.mp hb]
      simp
    · rfl

/-- With the three gate columns present, the `ftd_as_recharge` accumulator
is the on-or-after-cutoff sum. -/
theorem ftdAsRechargeOf_eq (f : Frame) (h1 : f.cols.team = true)
    (h2 : f.cols.ftd_count = true) (h3 : f.cols.date = true) :
    ftdAsRechargeOf f = ftdAfterSum f.rows := by
  unfold ftdAsRechargeOf ftdAfterSum
  rw [h1, h2, h3]
  simp only [Bool.and_self, if_true]
  split
  · rename_i ht
    rw [List.isEmpty_iff.mp ht]
    simp
  · split
    · rename_i hb
      rw [List.isEmpty_iff.mp hb]
      simp
    · rfl

/-- Projection: the `ftd_result` KPI equals the before-cutoff sum when the
gate columns are present. -/
theorem kpis_ftd_result_eq (f : Frame) (h1 : f.cols.team = true)
    (h2 : f.cols.ftd_count = true) (h3 : f.cols.date = true) :
    (calculate_kpis f).ftd_result = ftdBeforeSum f.rows := by
  unfold calculate_kpis
  split
  · rename_i he
    rw [List.isEmpty_iff.mp he]
    simp [zeroKPIs, ftdBeforeSum, ftdTeamRows]
  · show ftdResultOf f = _
    exact ftdResultOf_eq f h1 h2 h3

/-- Projection: the `recharge_count` KPI equals the plain recharge column
sum plus the after-cutoff FTD fold-in. -/
theorem kpis_recharge_eq (f : Frame) (h1 : f.cols.team = true)
    (h2 : f.cols.ftd_count = true) (h3 : f.cols.date = true) :
    (calculate_kpis f).recharge_count =
      colSum f.cols.recharge_count f.rows (fun r => r.recharge_count) +
        ftdAfterSum f.rows := by
  unfold calculate_kpis
  split
  · rename_i he
    rw [List.isEmpty_iff.mp he]
    cases f.cols.recharge_count <;>
      simp [zeroKPIs, colSum, ftdAfterSum, ftdTeamRows]
  · show colSum _ _ _ + ftdAsRechargeOf f = _
    rw [ftdAsRechargeOf_eq f h1 h2 h3]

/-- Before-cutoff sum over a cons of an FTD-team record. -/
theorem ftdBeforeSum_cons_ftd (r : Rec) (rows : List Rec) (hteam : r.team = "FTD TEAM") :
    ftdBeforeSum (r :: rows) =
      (if dateBeforeCutoff r.date then r.ftd_count else 0) + ftdBeforeSum rows := by
  unfold ftdBeforeSum ftdTeamRows
  rw [List.filter_cons]
  simp only [hteam, beq_self_eq_true, if_true, ite_true]
  rw [List.filter_cons]
  cases h : dateBeforeCutoff r.date <;> simp [h]

/-- After-cutoff sum over a cons of an FTD-team record. -/
theorem ftdAfterSum_cons_ftd (r : Rec) (rows : List Rec) (hteam : r.team = "FTD TEAM") :
    ftdAfterSum (r :: rows) =
      (if dateOnOrAfterCutoff r.date then r.ftd_count else 0) + ftdAfterSum rows := by
  unfold ftdAfterSum ftdTeamRows
  rw [List.filter_cons]
  simp only [hteam, beq_self_eq_true, if_true, ite_true]
  rw [List.filter_cons]
  cases h : dateOnOrAfterCutoff r.date <;> simp [h]

/-- Recharge column sum over a cons, column present. -/
theorem colSum_cons_true (rows : List Rec) (r : Rec) (g : Rec → Int) :
    colSum true (r :: rows) g = g r + colSum true rows g := by
  simp [colSum]

/-- C6.  In `calculate_kpis`, for a record tagged with the FTD team that
has an `ftd_count` field and a non-null date: if the date is strictly
before the cutoff (January 6, 2026) the record's `ftd_count` is added to
`ftd_result` and not to `recharge_count`; if the date is on or after the
cutoff, the same amount is added to `recharge_count` instead and
contributes 0 to `ftd_result`.  Stated as the effect of adding such a
record to any record set carrying the gate columns. -/
theorem c6_ftd_cutoff (r : Rec) (f : Frame)
    (h1 : f.cols.team = true) (h2 : f.cols.ftd_count = true) (h3 : f.cols.date = true)
    (hrc : f.cols.recharge_count = true)
    (hteam : r.team = "FTD TEAM") (d : Date) (hd : r.date = some d) :
    (d.toDays < jan6_2026.toDays →
      (calculate_kpis { f with rows := r :: f.rows }).ftd_result =
        (calculate_kpis f).ftd_result + r.ftd_count ∧
      (calculate_kpis { f with rows := r :: f.rows }).recharge_count =
        (calculate_kpis f).recharge_count + r.recharge_count) ∧
    (jan6_2026.toDays ≤ d.toDays →
      (calculate_kpis { f with rows := r :: f.rows }).ftd_result =
        (calculate_kpis f).ftd_result ∧
      (calculate_kpis { f with rows := r :: f.rows }).recharge_count =
        (calculate_kpis f).recharge_count + r.recharge_count + r.ftd_count) := by
  have hres := kpis_ftd_result_eq f h1 h2 h3
  have hrech := kpis_recharge_eq f h1 h2 h3
  have hres' := kpis_ftd_result_eq { f with rows := r :: f.rows } h1 h2 h3
  have hrech' := kpis_recharge_eq { f with rows := r :: f.rows } h1 h2 h3
  simp only at hres' hrech'
  rw [hrc] at hrech hrech'
  constructor
  · intro hlt
    have hbefore : dateBeforeCutoff r.date = true := by
      rw [hd]
      unfold dateBeforeCutoff
      exact decide_eq_true hlt
    have hafter : dateOnOrAfterCutoff r.date = false := by
      rw [hd]
      unfold dateOnOrAfterCutoff
      exact decide_eq_false (by omega)
    constructor
    · rw [hres', hres, ftdBeforeSum_cons_ftd r f.rows hteam, hbefore]
      simp [Int.add_comm]
    · rw [hrech', hrech, ftdAfterSum_cons_ftd r f.rows hteam, hafter,
        colSum_cons_true]
      simp
      omega
  · intro hge
    have hbefore : dateBeforeCutoff r.date = false := by
      rw [hd]
      unfold dateBeforeCutoff
      exact decide_eq_false (by omega)
    have hafter : dateOnOrAfterCutoff r.date = true := by
      rw [hd]
      unfold dateOnOrAfterCutoff
      exact decide_eq_true hge
    constructor
    · rw [hres', hres, ftdBeforeSum_cons_ftd r f.rows hteam, hbefore]
      simp
    · rw [hrech', hrech, ftdAfterSum_cons_ftd r f.rows hteam, hafter,
        colSum_cons_true]
      simp
      omega

/-- Demonstration record for the C6 witness: an FTD-team record dated
January 5, 2026 (the day before the cutoff). -/
def c6rec : Rec :=
  { date := some { year := 2026, month := 1, day := 5 }, agent_name := "CARLA",
    team := "FTD TEAM", ftd_count := 7, recharge_count := 2 }

/-- Demonstration frame for the C6 witness: the gate columns are present. -/
def c6frame : Frame :=
  { cols := { team := true, ftd_count := true, date := true, recharge_count := true },
    rows := [] }

/-- Witness for C6: the hypotheses hold at a concrete record and frame, and
the before-cutoff branch applies (January 5 < January 6). -/
theorem c6_ftd_cutoff_witness :
    c6frame.cols.team = true ∧ c6rec.team = "FTD TEAM" ∧
    (Date.toDays { year := 2026, month := 1, day := 5 } < jan6_2026.toDays) ∧
    ((calculate_kpis { c6frame with rows := c6rec :: c6frame.rows }).ftd_result =
        (calculate_kpis c6frame).ftd_result + c6rec.ftd_count ∧
      (calculate_kpis { c6frame with rows := c6rec :: c6frame.rows }).recharge_count =
        (calculate_kpis c6frame).recharge_count + c6rec.recharge_count) :=
  ⟨rfl, rfl, by decide,
   (c6_ftd_cutoff c6rec c6frame rfl rfl rfl rfl rfl
       { year := 2026, month := 1, day := 5 } rfl).1 (by decide)⟩

/-!
## Claim C7: pipeline frames never carry an `ftd_count` column
-/

/-- Record sets produced by the pipeline's own normalizers: any successful
output of `standardize_data` or `standardize_ftd_data`, and any
concatenation of such outputs. -/
inductive PipelineFrame : Frame → Prop where
  | std : ∀ raw y f, standardize_data raw y = Except.ok f → PipelineFrame f
  | ftd : ∀ raw y f, standardize_ftd_data raw y = Except.ok f → PipelineFrame f
  | concat : ∀ f g, PipelineFrame f → PipelineFrame g → PipelineFrame (concatFrames f g)

/-- A `standardize_data` output has no `ftd_count` column. -/
theorem standardize_data_no_ftd_col {raw : List (List String)} {y : Int} {f : Frame}
    (h : standardize_data raw y = Except.ok f) : f.cols.ftd_count = false := by
  unfold standardize_data at h
  split at h
  · simp only [Except.ok.injEq] at h
    subst h
    rfl
  · split at h
    · cases h
    · simp only [Except.ok.injEq] at h
      subst h
      rfl

/-- A `standardize_ftd_data` output has no `ftd_count` column (the FTD
dialect emits `deposit_amount` instead). -/
theorem standardize_ftd_data_no_ftd_col {raw : List (List String)} {y : Int} {f : Frame}
    (h : standardize_ftd_data raw y = Except.ok f) : f.cols.ftd_count = false := by
  unfold standardize_ftd_data at h
  split at h
  · simp only [Except.ok.injEq] at h
    subst h
    rfl
  · split at h
    · cases h
    · simp only [Except.ok.injEq] at h
      subst h
      rfl

/-- No pipeline frame carries an `ftd_count` column: neither normalizer
emits one, and concatenation takes the union of column sets. -/
theorem pipelineFrame_no_ftd_col (f : Frame) (h : PipelineFrame f) :
    f.cols.ftd_count = false := by
  induction h with
  | std raw y g hg => exact standardize_data_no_ftd_col hg
  | ftd raw y g hg => exact standardize_ftd_data_no_ftd_col hg
  | concat a b ha hb iha ihb => simp [concatFrames, colsUnion, iha, ihb]

/-- C7.  For every record set produced by the pipeline's own normalizers
(any output of `standardize_data` or `standardize_ftd_data`, or any
concatenation of such outputs), `calculate_kpis` returns `ftd_result = 0`
and the FTD branch adds nothing to `recharge_count` (the KPI is exactly the
plain recharge column sum), because the FTD branch is gated on the presence
of an `ftd_count` column and no pipeline frame has one. -/
theorem c7_pipeline_no_ftd (f : Frame) (h : PipelineFrame f) :
    (calculate_kpis f).ftd_result = 0 ∧
    (calculate_kpis f).recharge_count =
      colSum f.cols.recharge_count f.rows (fun r => r.recharge_count) := by
  have hcol : f.cols.ftd_count = false := pipelineFrame_no_ftd_col f h
  unfold calculate_kpis
  split
  · rename_i he
    refine ⟨rfl, ?_⟩
    rw [List.isEmpty_iff.mp he]
    cases f.cols.recharge_count <;> simp [zeroKPIs, colSum]
  · constructor
    · show ftdResultOf f = 0
      simp [ftdResultOf, hcol]
    · show colSum _ _ _ + ftdAsRechargeOf f = _
      simp [ftdAsRechargeOf, hcol]

/-- Demonstration frame for the C7 witness: the `standardize_data` output
for one 2026 row with a recharge count of 3. -/
def c7frame : Frame :=
  { cols := stdCols,
    rows := [{ date := some { year := 2026, month := 1, day := 5 },
               agent_name := "DAN", recharge_count := 3, yearTag := 2026 }] }

/-- Witness for C7: the pipeline hypothesis holds at a concrete
`standardize_data` call, and the conclusion follows. -/
theorem c7_pipeline_no_ftd_witness :
    (calculate_kpis c7frame).ftd_result = 0 ∧
    (calculate_kpis c7frame).recharge_count =
      colSum c7frame.cols.recharge_count c7frame.rows (fun r => r.recharge_count) :=
  c7_pipeline_no_ftd c7frame
    (PipelineFrame.std [["DATE", "AGENT", "C", "D"], ["1/5", "DAN", "", "3"]] 2026
      c7frame rfl)

/-!
## Claim C8: the FTD metric functions always fail to import
-/

/-- C8.  Every call to `calculate_ftd_kpis`, `calculate_ftd_agent_metrics`
or `calculate_ftd_daily_metrics` (and hence to `get_ftd_top_performers`),
on any input including the empty record set, fails with an import error
rather than returning a result, because each begins by importing
`FTD_TEAM_LEADER` from `utils.data_processor`, which defines no such
name. -/
theorem c8_ftd_import_error (f : Frame) (metric : String) (n : Nat) :
    calculate_ftd_kpis f = Except.error () ∧
    calculate_ftd_agent_metrics f = Except.error () ∧
    calculate_ftd_daily_metrics f = Except.error () ∧
    get_ftd_top_performers f metric n = Except.error () := by
  have h : importFTD_TEAM_LEADER = Except.error () := rfl
  refine ⟨?_, ?_, ?_, ?_⟩ <;>
    simp [calculate_ftd_kpis, calculate_ftd_agent_metrics,
      calculate_ftd_daily_metrics, get_ftd_top_performers, h,
      Bind.bind, Except.bind]

/-!
## Claim C10: the active-agent window ignores non-present records
-/

/-- Window filter following the claim's words: records whose date falls
within the most recent 7-day window ending at the maximum date present in
the given record list. -/
def windowRows (rows : List Rec) : List Rec :=
  rows.filter (fun r =>
    match r.date with
    | some d => listMax ((datesOf rows).map Date.toDays) - 7 ≤ d.toDays
    | none => false)

/-- Claim-side count over a record list: distinct agent names within the
7-day window when any non-null date exists (and the date column is there),
all records otherwise. -/
def claimedActiveAgentsRows (dateCol : Bool) (rows : List Rec) : Int :=
  if dateCol && !(datesOf rows).isEmpty then
    (nunique ((windowRows rows).map (fun r => r.agent_name)) : Int)
  else (nunique (rows.map (fun r => r.agent_name)) : Int)

/-- The active-agent count exactly as claim C10 states it: computed over
ALL records of the set, with no reference to `is_present`. -/
def claimedActiveAgents (f : Frame) : Int :=
  claimedActiveAgentsRows f.cols.date f.rows

/-- The active-agent count as the amended claim states it: non-present
records are excluded before both the window computation and the distinct
count. -/
def amendedActiveAgents (f : Frame) : Int :=
  if f.cols.agent_name then claimedActiveAgentsRows f.cols.date (presentRows f)
  else 0

/-- Demonstration frame for the C10 counterexample: a single record with
`is_present = false` and a date. -/
def c10frame : Frame :=
  { cols := { agent_name := true, is_present := true, date := true },
    rows := [{ agent_name := "A", is_present := false,
               date := some { year := 2026, month := 1, day := 10 } }] }

/-- C10 (counterexample).  On a record set containing one record with
`is_present = false`, `calculate_kpis` reports 0 active agents, while the
claim's count (distinct agents among records whose date lies in the 7-day
window ending at the maximum date of the set) is 1: the claim omits the
present-only filter the code applies first. -/
theorem c10_counterexample :
    (calculate_kpis c10frame).active_agents = 0 ∧ claimedActiveAgents c10frame = 1 ∧
    (calculate_kpis c10frame).active_agents ≠ claimedActiveAgents c10frame :=
  ⟨rfl, rfl, by
    rw [show (calculate_kpis c10frame).active_agents = 0 from rfl,
      show claimedActiveAgents c10frame = 1 from rfl]
    decide⟩

/-- The list of dates of a filtered-to-empty record list is empty. -/
theorem datesOf_nil : datesOf [] = [] := rfl

/-- The code's windowed count equals the amended claim's count. -/
theorem gaac_eq_amended (f : Frame) :
    get_active_agents_count f 7 = amendedActiveAgents f := by
  unfold get_active_agents_count amendedActiveAgents claimedActiveAgentsRows
  cases hA : f.cols.agent_name with
  | false => simp
  | true =>
    cases hE : f.rows.isEmpty with
    | true =>
      have hp : presentRows f = [] := by
        unfold presentRows
        rw [List.isEmpty_iff.mp hE]
        cases f.cols.is_present <;> simp
      simp [hp, nunique, datesOf]
    | false =>
      cases hP : (presentRows f).isEmpty with
      | true =>
        have hp : presentRows f = [] := List.isEmpty_iff.mp hP
        simp [hp, nunique, datesOf]
      | false =>
        cases hD : f.cols.date with
        | false =>
          have hr : recentRows f 7 = presentRows f := by
            unfold recentRows
            rw [hD]
            simp
          rw [hr]
          simp [hP]
        | true =>
          cases hds : (datesOf (presentRows f)).isEmpty with
          | true =>
            have hr : recentRows f 7 = presentRows f := by
              unfold recentRows
              rw [hD, hds]
              simp
            rw [hr]
            simp [hP]
          | false =>
            have hr : recentRows f 7 = windowRows (presentRows f) := by
              unfold recentRows windowRows
              rw [hD, hds]
              simp
            rw [hr]
            cases hw : (windowRows (presentRows f)).isEmpty with
            | true =>
              rw [List.isEmpty_iff.mp hw]
              simp [nunique]
            | false => simp [hw]

/-- C10 (amended).  The `active_agents` value returned by `calculate_kpis`
equals the number of distinct agent names among the records with
`is_present = true` (all records when that column is absent) whose date
falls within the most recent 7-day window ending at the maximum date among
those present records; when no present record has a non-null date, every
present record counts; the count is 0 without an `agent_name` column. -/
theorem c10_amended (f : Frame) :
    (calculate_kpis f).active_agents = amendedActiveAgents f := by
  unfold calculate_kpis
  split
  · rename_i he
    have hrows : f.rows = [] := List.isEmpty_iff.mp he
    have hp : presentRows f = [] := by
      unfold presentRows
      rw [hrows]
      cases f.cols.is_present <;> simp
    show (0 : Int) = amendedActiveAgents f
    unfold amendedActiveAgents claimedActiveAgentsRows
    cases f.cols.agent_name <;> simp [hp, nunique, datesOf]
  · show get_active_agents_count f 7 = _
    exact gaac_eq_amended f

/-!
## Claim C5: rate bounds
-/

/-- The half-even rounding stays between the floor and the floor plus
one. -/
theorem round2Int_bounds (s : ℚ) : ⌊s⌋ ≤ round2Int s ∧ round2Int s ≤ ⌊s⌋ + 1 := by
  unfold round2Int
  split_ifs <;> omega

/-- Rounding a non-negative rational to two decimals is non-negative. -/
theorem pyRound2_nonneg {q : ℚ} (h : 0 ≤ q) : 0 ≤ pyRound2 q := by
  unfold pyRound2
  have h1 : (0 : Int) ≤ ⌊q * 100⌋ := Int.floor_nonneg.mpr (by positivity)
  have h2 : (0 : Int) ≤ round2Int (q * 100) := le_trans h1 (round2Int_bounds (q * 100)).1
  have h3 : (0 : ℚ) ≤ (round2Int (q * 100) : ℚ) := by exact_mod_cast h2
  positivity

/-- Rounding zero gives zero. -/
theorem pyRound2_zero : pyRound2 0 = 0 := by
  unfold pyRound2 round2Int
  norm_num

/-- Half-even rounding of a rational at most 10000 is at most 10000. -/
theorem round2Int_le (s : ℚ) (hs : s ≤ 10000) : round2Int s ≤ 10000 := by
  have hfl : ⌊s⌋ ≤ 10000 := by
    have h1 : ⌊s⌋ ≤ ⌊(10000 : ℚ)⌋ := Int.floor_le_floor hs
    simpa using h1
  have hfls : (⌊s⌋ : ℚ) ≤ s := Int.floor_le s
  unfold round2Int
  split_ifs with h1 h2 h3
  · exact hfl
  · have h4 : (⌊s⌋ : ℚ) + 1/2 < s := by linarith
    have h5 : (⌊s⌋ : ℚ) < 9999.5 := by linarith
    have h6 : ⌊s⌋ ≤ 9999 := by
      by_contra hc
      push_neg at hc
      have h7 : (10000 : ℚ) ≤ (⌊s⌋ : ℚ) := by exact_mod_cast hc
      linarith
    omega
  · exact hfl
  · omega

/-- Rounding a rational at most 100 to two decimals stays at most 100. -/
theorem pyRound2_le_100 {q : ℚ} (h : q ≤ 100) : pyRound2 q ≤ 100 := by
  unfold pyRound2
  have h1 : round2Int (q * 100) ≤ 10000 := round2Int_le (q * 100) (by linarith)
  have h2 : (round2Int (q * 100) : ℚ) ≤ 10000 := by exact_mod_cast h1
  linarith

/-- A column sum of entrywise non-negative values is non-negative. -/
theorem colSum_nonneg (pres : Bool) (rows : List Rec) (g : Rec → Int)
    (h : ∀ r ∈ rows, 0 ≤ g r) : 0 ≤ colSum pres rows g := by
  unfold colSum
  split
  · apply List.sum_nonneg
    intro x hx
    obtain ⟨r, hr, rfl⟩ := List.mem_map.mp hx
    exact h r hr
  · exact le_refl 0

/-- The agent-side recall split is non-negative for non-negative inputs. -/
theorem peopleRecalledOf_nonneg (f : Frame)
    (h : ∀ r ∈ f.rows, 0 ≤ r.people_recalled) : 0 ≤ peopleRecalledOf f := by
  unfold peopleRecalledOf
  split
  · apply List.sum_nonneg
    intro x hx
    obtain ⟨r, hr, rfl⟩ := List.mem_map.mp hx
    exact h r (List.mem_of_mem_filter hr)
  · exact colSum_nonneg _ _ _ h

/-- The leader-side recall split is non-negative for non-negative inputs. -/
theorem vipRecalledOf_nonneg (f : Frame)
    (h : ∀ r ∈ f.rows, 0 ≤ r.people_recalled) : 0 ≤ vipRecalledOf f := by
  unfold vipRecalledOf
  split
  · apply List.sum_nonneg
    intro x hx
    obtain ⟨r, hr, rfl⟩ := List.mem_map.mp hx
    exact h r (List.mem_of_mem_filter hr)
  · exact le_refl 0

/-- Projection: the `total_calls` KPI. -/
theorem kpis_total_calls (f : Frame) :
    (calculate_kpis f).total_calls =
      if f.rows.isEmpty then 0
      else colSum f.cols.total_calls f.rows (fun r => r.total_calls) := by
  unfold calculate_kpis
  split <;> rfl

/-- Projection: the `answered_calls` KPI. -/
theorem kpis_answered_calls (f : Frame) :
    (calculate_kpis f).answered_calls =
      if f.rows.isEmpty then 0
      else colSum f.cols.answered_calls f.rows (fun r => r.answered_calls) := by
  unfold calculate_kpis
  split <;> rfl

/-- Projection: the `people_recalled` KPI. -/
theorem kpis_people_recalled (f : Frame) :
    (calculate_kpis f).people_recalled =
      if f.rows.isEmpty then 0 else peopleRecalledOf f := by
  unfold calculate_kpis
  split <;> rfl

/-- Projection: the `vip_recalled` KPI. -/
theorem kpis_vip_recalled (f : Frame) :
    (calculate_kpis f).vip_recalled =
      if f.rows.isEmpty then 0 else vipRecalledOf f := by
  unfold calculate_kpis
  split <;> rfl

/-- Projection: the `connection_rate` KPI. -/
theorem kpis_connection_rate (f : Frame) :
    (calculate_kpis f).connection_rate =
      if f.rows.isEmpty then 0
      else
        pyRound2
          (if 0 < colSum f.cols.total_calls f.rows (fun r => r.total_calls) then
            ((colSum f.cols.answered_calls f.rows (fun r => r.answered_calls) : ℚ) /
                (colSum f.cols.total_calls f.rows (fun r => r.total_calls) : ℚ)) * 100
          else 0) := by
  unfold calculate_kpis
  split <;> rfl

/-- Projection: the `conversion_rate_recalled` KPI. -/
theorem kpis_conversion_rate_recalled (f : Frame) :
    (calculate_kpis f).conversion_rate_recalled =
      if f.rows.isEmpty then 0
      else
        pyRound2
          (if 0 < colSum f.cols.answered_calls f.rows (fun r => r.answered_calls) then
            (((peopleRecalledOf f + vipRecalledOf f : Int) : ℚ) /
                (colSum f.cols.answered_calls f.rows (fun r => r.answered_calls) : ℚ)) * 100
          else 0) := by
  unfold calculate_kpis
  split <;> rfl

/-- Demonstration frame for the C5 counterexample: one record with
non-negative inputs where answered calls exceed total calls and recalled
people exceed answered calls. -/
def c5frame : Frame :=
  { cols := { agent_name := true, total_calls := true, answered_calls := true,
              people_recalled := true },
    rows := [{ agent_name := "X", total_calls := 1, answered_calls := 2,
               people_recalled := 4 }] }

/-- C5 (counterexample).  On a record set with non-negative inputs
(`total_calls = 1`, `answered_calls = 2`, `people_recalled = 4`),
`calculate_kpis` returns `connection_rate = 200` and
`conversion_rate_recalled = 200`: both rates exceed 100, so the interval
claim `[0, 100]` fails (nothing caps the numerator at the denominator). -/
theorem c5_counterexample :
    (calculate_kpis c5frame).connection_rate = 200 ∧
    (calculate_kpis c5frame).conversion_rate_recalled = 200 ∧
    ¬((calculate_kpis c5frame).connection_rate ≤ 100) ∧
    ¬((calculate_kpis c5frame).conversion_rate_recalled ≤ 100) := by
  have h1 : (calculate_kpis c5frame).connection_rate = 200 := by
    rw [kpis_connection_rate]
    norm_num [c5frame, colSum, pyRound2, round2Int]
  have h2 : (calculate_kpis c5frame).conversion_rate_recalled = 200 := by
    rw [kpis_conversion_rate_recalled]
    norm_num [c5frame, colSum, peopleRecalledOf, vipRecalledOf, isTL, pyUpper,
      strContains, containsSub, startsWithChars, pyRound2, round2Int]
  refine ⟨h1, h2, ?_, ?_⟩
  · rw [h1]
    norm_num
  · rw [h2]
    norm_num

/-- C5 (amended).  For every record set whose `total_calls`,
`answered_calls` and `people_recalled` values are non-negative, the
`connection_rate` and `conversion_rate_recalled` returned by
`calculate_kpis` are non-negative finite rationals, each is exactly 0 when
its denominator KPI (`total_calls`, respectively `answered_calls`) is 0 —
never NaN, infinity, or an exception — and each lies in `[0, 100]` under
the additional hypothesis that its numerator KPI does not exceed its
denominator KPI. -/
theorem c5_rate_bounds (f : Frame)
    (h : ∀ r ∈ f.rows, 0 ≤ r.total_calls ∧ 0 ≤ r.answered_calls ∧ 0 ≤ r.people_recalled) :
    0 ≤ (calculate_kpis f).connection_rate ∧
    0 ≤ (calculate_kpis f).conversion_rate_recalled ∧
    ((calculate_kpis f).total_calls = 0 → (calculate_kpis f).connection_rate = 0) ∧
    ((calculate_kpis f).answered_calls = 0 →
      (calculate_kpis f).conversion_rate_recalled = 0) ∧
    ((calculate_kpis f).answered_calls ≤ (calculate_kpis f).total_calls →
      (calculate_kpis f).connection_rate ≤ 100) ∧
    ((calculate_kpis f).people_recalled + (calculate_kpis f).vip_recalled ≤
        (calculate_kpis f).answered_calls →
      (calculate_kpis f).conversion_rate_recalled ≤ 100) := by
  rw [kpis_connection_rate, kpis_conversion_rate_recalled, kpis_total_calls,
    kpis_answered_calls, kpis_people_recalled, kpis_vip_recalled]
  cases he : f.rows.isEmpty with
  | true => norm_num
  | false =>
    simp only [if_false, Bool.false_eq_true, ite_false]
    have hT : 0 ≤ colSum f.cols.total_calls f.rows (fun r => r.total_calls) :=
      colSum_nonneg _ _ _ (fun r hr => (h r hr).1)
    have hA : 0 ≤ colSum f.cols.answered_calls f.rows (fun r => r.answered_calls) :=
      colSum_nonneg _ _ _ (fun r hr => (h r hr).2.1)
    have hP : 0 ≤ peopleRecalledOf f :=
      peopleRecalledOf_nonneg f (fun r hr => (h r hr).2.2)
    have hV : 0 ≤ vipRecalledOf f :=
      vipRecalledOf_nonneg f (fun r hr => (h r hr).2.2)
    refine ⟨?_, ?_, ?_, ?_, ?_, ?_⟩
    · apply pyRound2_nonneg
      split
      · rename_i ht
        have h1 : (0 : ℚ) ≤ (colSum f.cols.answered_calls f.rows (fun r => r.answered_calls) : ℚ) := by
          exact_mod_cast hA
        have h2 : (0 : ℚ) < (colSum f.cols.total_calls f.rows (fun r => r.total_calls) : ℚ) := by
          exact_mod_cast ht
        positivity
      · exact le_refl 0
    · apply pyRound2_nonneg
      split
      · rename_i ht
        have h1 : (0 : ℚ) ≤ ((peopleRecalledOf f + vipRecalledOf f : Int) : ℚ) := by
          exact_mod_cast Int.add_nonneg hP hV
        have h2 : (0 : ℚ) < (colSum f.cols.answered_calls f.rows (fun r => r.answered_calls) : ℚ) := by
          exact_mod_cast ht
        positivity
      · exact le_refl 0
    · intro ht0
      rw [ht0]
      norm_num [pyRound2_zero]
    · intro ha0
      rw [ha0]
      norm_num [pyRound2_zero]
    · intro hle
      apply pyRound2_le_100
      split
      · rename_i ht
        have h2 : (0 : ℚ) < (colSum f.cols.total_calls f.rows (fun r => r.total_calls) : ℚ) := by
          exact_mod_cast ht
        have h3 : (colSum f.cols.answered_calls f.rows (fun r => r.answered_calls) : ℚ) ≤
            (colSum f.cols.total_calls f.rows (fun r => r.total_calls) : ℚ) := by
          exact_mod_cast hle
        have h4 : (colSum f.cols.answered_calls f.rows (fun r => r.answered_calls) : ℚ) /
            (colSum f.cols.total_calls f.rows (fun r => r.total_calls) : ℚ) ≤ 1 :=
          (div_le_one h2).mpr h3
        nlinarith
      · norm_num
    · intro hle
      apply pyRound2_le_100
      split
      · rename_i ht
        have h2 : (0 : ℚ) < (colSum f.cols.answered_calls f.rows (fun r => r.answered_calls) : ℚ) := by
          exact_mod_cast ht
        have h3 : ((peopleRecalledOf f + vipRecalledOf f : Int) : ℚ) ≤
            (colSum f.cols.answered_calls f.rows (fun r => r.answered_calls) : ℚ) := by
          exact_mod_cast hle
        have h4 : ((peopleRecalledOf f + vipRecalledOf f : Int) : ℚ) /
            (colSum f.cols.answered_calls f.rows (fun r => r.answered_calls) : ℚ) ≤ 1 :=
          (div_le_one h2).mpr h3
        nlinarith
      · norm_num

/-- Witness for C5 (amended): the non-negativity hypothesis holds at a
concrete frame, and the bounds follow. -/
theorem c5_rate_bounds_witness :
    (∀ r ∈ c5frame.rows, 0 ≤ r.total_calls ∧ 0 ≤ r.answered_calls ∧ 0 ≤ r.people_recalled) ∧
    0 ≤ (calculate_kpis c5frame).connection_rate ∧
    ((calculate_kpis c5frame).total_calls = 0 →
      (calculate_kpis c5frame).connection_rate = 0) :=
  ⟨by decide,
   (c5_rate_bounds c5frame (by decide)).1,
   (c5_rate_bounds c5frame (by decide)).2.2.1⟩

end Telesales

